import Mathlib

/-!
Shallow embedding of `modulus/experimental/sfno/perf_tests/afno/block.py`,
a micro-benchmark script that builds a stack of AFNO `Block` layers, runs a
warm-up loop and a timed loop, and prints timing and peak-memory figures.

The externally defined pieces (the `Block` layer from `afnonet_v2`, the mean
reduction, the gradient-scaler backward pass, the RNG behind `normal_()`)
are kept abstract: the definitions below are parameterized over them, so
every theorem holds for all of their possible behaviours.  Device counters
(clock readings, allocator byte counts) are likewise parameters.
-/

namespace BlockPerf

/-- Command-line arguments of the script, from the `argparse` setup in the
`__main__` block (lines 121-131 of `block.py`).  All integer arguments are
parsed with `type=int`; the three `enable_*` flags are `store_true` booleans. -/
structure Args where
  batch_size : Nat
  num_layers : Nat
  patch_size : Nat
  embed_dim : Nat
  height : Nat
  width : Nat
  enable_amp : Bool
  enable_jit : Bool
  enable_profiling : Bool
deriving Repr, DecidableEq

/-- Defaults of the argument parser: batch_size=1, num_layers=1, patch_size=4,
embed_dim=1024, height=720, width=1440, all flags false. -/
def defaultArgs : Args :=
  { batch_size := 1, num_layers := 1, patch_size := 4, embed_dim := 1024,
    height := 720, width := 1440,
    enable_amp := false, enable_jit := false, enable_profiling := false }

/-- Line 52: `num_warmup = 10`. -/
def num_warmup : Nat := 10

/-- Line 53: `num_steps = 10`. -/
def num_steps : Nat := 10

/-- Line 56: `H = args.height // args.patch_size` (Python floor division on
nonnegative ints is `Nat.div`). -/
def gridH (a : Args) : Nat := a.height / a.patch_size

/-- Line 57: `W = args.width // args.patch_size`. -/
def gridW (a : Args) : Nat := a.width / a.patch_size

/-- Line 82: shape tuple of the input allocation
`torch.empty((batch_size, C, H, W), dtype=torch.float32, device=device)`,
where `C = args.embed_dim`, `H = height // patch_size`, `W = width // patch_size`. -/
def inpShape (a : Args) : List Nat := [a.batch_size, a.embed_dim, gridH a, gridW a]

/-- Shapes of the input tensors allocated by `main`: line 82 is the only
input-tensor allocation in the function, so the list has one element. -/
def mainInputAllocs (a : Args) : List (List Nat) := [inpShape a]

/-- Lines 74-76: the model is
`nn.Sequential(*[Block(h=H, w=W, dim=C, ...) for _ in range(num_layers)])`.
`Block` comes from an external module, so its constructor is a parameter
`blockCtor h w dim`, which may fail (return `none`); `nn.Sequential` chains
the resulting layer functions in order, starting from the identity for an
empty layer list.  The script itself performs no validation of `H`, `W`. -/
def buildModel (Data : Type) (a : Args)
    (blockCtor : Nat → Nat → Nat → Option (Data → Data)) : Option (Data → Data) :=
  (List.range a.num_layers).foldl
    (fun acc _ =>
      match acc, blockCtor (gridH a) (gridW a) a.embed_dim with
      | some g, some f => some (f ∘ g)
      | _, _ => none)
    (some id)

/-- Modelled from the spec: `torch.jit.script` is the ahead-of-time graph
compiler applied to the whole sequence when `--enable_jit` is given
("converting the dynamic computation graph into a fixed, optimized executable
graph"), so it preserves the function the model computes. -/
def jitScript (Data : Type) (f : Data → Data) : Data → Data := f

/-- Lines 74-79: the model used by the loops: the built `nn.Sequential`,
passed through `torch.jit.script` when `enable_jit` is set. -/
def modelOf (Data : Type) (a : Args)
    (blockCtor : Nat → Nat → Nat → Option (Data → Data)) : Option (Data → Data) :=
  (buildModel Data a blockCtor).map (fun m => if a.enable_jit then jitScript Data m else m)

/-- One line printed to standard output by `main`, tagged by which `print`
statement produced it, carrying the reported numeric payload. -/
inductive OutLine
  | scaffoldMem (gb : ℚ)
  | timePerStep (ms : ℚ)
  | peakMem (gb : ℚ)
deriving Repr, DecidableEq

/-- Lines 94 and 118: `torch.cuda.max_memory_allocated(device) / (1024. * 1024. * 1024.)`,
bytes converted to gigabytes. -/
def bytesToGB (bytes : Nat) : ℚ := (bytes : ℚ) / (1024 * 1024 * 1024)

/-- Line 116: `(end - start) * 10 ** (-6) / float(num_steps)`, the elapsed
nanoseconds converted to milliseconds per timed step.  Real arithmetic is
modelled exactly over ℚ. -/
def timePerStepMs (startNs endNs : Nat) : ℚ :=
  ((endNs : ℚ) - (startNs : ℚ)) * (1 / 10 ^ 6) / (num_steps : ℚ)

/-- The lines `main` writes to standard output on a successful run, in
program order: the scaffolding memory high watermark (line 94, printed after
the warm-up loop), the time per step (line 116) and the memory high
watermark of the timed region (line 118).  `scaffoldBytes` and `peakBytes`
are the two `max_memory_allocated` readings; `startNs`, `endNs` the two
`perf_counter_ns` readings. -/
def mainStdout (scaffoldBytes startNs endNs peakBytes : Nat) : List OutLine :=
  [OutLine.scaffoldMem (bytesToGB scaffoldBytes),
   OutLine.timePerStep (timePerStepMs startNs endNs),
   OutLine.peakMem (bytesToGB peakBytes)]

/-- Modelled from the spec: the process group returned by
`comm.get_model_parallel_group()` (the `comm` utility module is not part of
the sources here); the spec calls it the model-parallel group, the group the
collective barrier is scoped to. -/
inductive Group
  | modelParallel
deriving Repr, DecidableEq

/-- Observable events of the timed region of `main` (lines 99-114), in the
order the host thread issues them. -/
inductive Event
  | profilerStart
  | startClock
  | rangePush (step : Nat)
  | zeroGrad
  | forward
  | lossMean
  | backward
  | rangePop
  | barrier (g : Group)
  | endClock
  | profilerStop
deriving Repr, DecidableEq

/-- Lines 103-108: the events of one timed iteration: an nvtx range push
named after the step, `zero_grad`, the forward pass, the mean reduction, the
scaled backward pass, and the nvtx range pop. -/
def stepTrace (step : Nat) : List Event :=
  [Event.rangePush step, Event.zeroGrad, Event.forward, Event.lossMean,
   Event.backward, Event.rangePop]

/-- Lines 99-114: the event trace of the timed region.
`cudaProfilerStart(enabled=args.enable_profiling)` calls into `libcudart`
only when the flag is set (lines 38-44), so the profiler events appear iff
`enableProfiling`; the clock start, the `num_steps` iterations, then
`if dist.is_initialized(): dist.barrier(..., group=comm.get_model_parallel_group())`
(lines 110-111), the clock end (line 112), and the profiler stop (line 114). -/
def timedTrace (enableProfiling distInit : Bool) : List Event :=
  (if enableProfiling then [Event.profilerStart] else [])
    ++ [Event.startClock]
    ++ (List.range num_steps).flatMap stepTrace
    ++ (if distInit then [Event.barrier Group.modelParallel] else [])
    ++ [Event.endClock]
    ++ (if enableProfiling then [Event.profilerStop] else [])

/-- The mutable state the two loops of `main` act on: the contents of the
input tensor `inp_loc`, the number of `normal_()` draws made so far (the RNG
position), the accumulated parameter gradients (`none` after
`zero_grad(set_to_none=True)`), and the tensors produced by the last
iteration (`out_loc`, `l_loc`). -/
structure RunState (Data : Type) where
  inp : Data
  rngDraws : Nat
  grads : Option Data
  out : Option Data
  loss : Option Data

/-- Lines 85-91: one warm-up iteration.  `inp_loc.normal_()` overwrites the
input with the next RNG draw (`sample` indexed by the draw count), then
`zero_grad(set_to_none=True)` clears the gradients, the forward pass and mean
reduction run under autocast, and `gscaler.scale(l).backward()` writes fresh
gradients (`gradOf` abstracts the scaled backward pass). -/
def warmupStep (Data : Type) (sample : Nat → Data)
    (model meanFn gradOf : Data → Data) (s : RunState Data) : RunState Data :=
  let inp1 := sample s.rngDraws
  let s1 : RunState Data :=
    { s with inp := inp1, rngDraws := s.rngDraws + 1, grads := none }
  let o := model s1.inp
  let l := meanFn o
  { s1 with out := some o, loss := some l, grads := some (gradOf l) }

/-- Lines 103-108: one timed iteration: identical to a warm-up iteration
except that the input is NOT resampled — no `normal_()` call appears in the
timed loop, so `inp` and the RNG position are read but never written. -/
def timedStep (Data : Type)
    (model meanFn gradOf : Data → Data) (s : RunState Data) : RunState Data :=
  let s1 : RunState Data := { s with grads := none }
  let o := model s1.inp
  let l := meanFn o
  { s1 with out := some o, loss := some l, grads := some (gradOf l) }

/-- Lines 85-91: the warm-up loop runs `num_warmup` warm-up iterations. -/
def warmupPhase (Data : Type) (sample : Nat → Data)
    (model meanFn gradOf : Data → Data) (s : RunState Data) : RunState Data :=
  (warmupStep Data sample model meanFn gradOf)^[num_warmup] s

/-- Errors that can abort the process before `main` runs. -/
inductive LoadError
  | libcudartMissing
deriving Repr, DecidableEq

/-- Line 36: `libcudart = cdll.LoadLibrary('libcudart.so')` runs at module
load time, unconditionally — before the argument parser and before `main`.
If the native library is absent the import raises and the process dies. -/
def importBlockModule (libcudartPresent : Bool) : Except LoadError Unit :=
  if libcudartPresent then Except.ok () else Except.error LoadError.libcudartMissing

/-- The whole script run: module import (which loads `libcudart`), then
`main(args, verify)`.  The observable result of a successful run is the
stdout lines together with the timed-region event trace.  `verify` is the
second parameter of `main` (line 47); its value is never read in the body. -/
def runScript (libcudartPresent : Bool) (a : Args) (verify : Bool) (distInit : Bool)
    (scaffoldBytes startNs endNs peakBytes : Nat) :
    Except LoadError (List OutLine × List Event) :=
  match importBlockModule libcudartPresent with
  | Except.error e => Except.error e
  | Except.ok _ =>
      Except.ok (mainStdout scaffoldBytes startNs endNs peakBytes,
                 timedTrace a.enable_profiling distInit)

/-- Line 133: the `__main__` block always calls `main(args, verify=True)`. -/
def scriptEntry (libcudartPresent : Bool) (a : Args) (distInit : Bool)
    (scaffoldBytes startNs endNs peakBytes : Nat) :
    Except LoadError (List OutLine × List Event) :=
  runScript libcudartPresent a true distInit scaffoldBytes startNs endNs peakBytes

/-- Concrete arguments used by witnesses: the defaults with zero layers. -/
def argsNL0 : Args := { defaultArgs with num_layers := 0 }

/-- Concrete degenerate arguments: zero layers and `height < patch_size`, so
`height // patch_size = 0`. -/
def badArgs : Args := { defaultArgs with num_layers := 0, height := 2 }

/-- Concrete arguments with profiling enabled. -/
def profArgs : Args := { defaultArgs with enable_profiling := true }

/-- A block constructor that always fails, for concrete instantiations. -/
def failingCtor : Nat → Nat → Nat → Option (Nat → Nat) := fun _ _ _ => none

/-- Helper: one timed iteration never changes the input tensor contents. -/
theorem timedStep_inp (Data : Type) (model meanFn gradOf : Data → Data)
    (s : RunState Data) : (timedStep Data model meanFn gradOf s).inp = s.inp := rfl

/-- Helper: one timed iteration never advances the RNG position. -/
theorem timedStep_rngDraws (Data : Type) (model meanFn gradOf : Data → Data)
    (s : RunState Data) :
    (timedStep Data model meanFn gradOf s).rngDraws = s.rngDraws := rfl

/-- Helper: iterating timed steps keeps the input and RNG position fixed. -/
theorem timedStep_iterate_fixed (Data : Type) (model meanFn gradOf : Data → Data)
    (s : RunState Data) (k : Nat) :
    ((timedStep Data model meanFn gradOf)^[k] s).inp = s.inp ∧
    ((timedStep Data model meanFn gradOf)^[k] s).rngDraws = s.rngDraws := by
  induction k with
  | zero => exact ⟨rfl, rfl⟩
  | succ n ih =>
      rw [Function.iterate_succ_apply']
      exact ⟨(timedStep_inp _ _ _ _ _).trans ih.1,
             (timedStep_rngDraws _ _ _ _ _).trans ih.2⟩

end BlockPerf

open BlockPerf

/-- C1 counterexample: at concrete counter readings, a successful run of
`main` does not write exactly two lines to standard output (it writes the
scaffolding memory line as well, three in total). -/
theorem stdout_two_lines_cex : ¬ ((mainStdout 0 0 0 0).length = 2) := by decide

/-- C1 (amended): on a successful run the program writes exactly three
human-readable lines to standard output: a scaffolding peak-memory line
printed after the warm-up loop, then one line reporting the time per step
and one reporting the peak memory of the timed region. -/
theorem stdout_three_lines (scaffoldBytes startNs endNs peakBytes : Nat) :
    (mainStdout scaffoldBytes startNs endNs peakBytes).length = 3 ∧
    ∃ g1 t g2, mainStdout scaffoldBytes startNs endNs peakBytes =
      [OutLine.scaffoldMem g1, OutLine.timePerStep t, OutLine.peakMem g2] :=
  ⟨rfl, _, _, _, rfl⟩

/-- C2 counterexample: at the default configuration the single allocated
input tensor does not have shape (batch_size, embed_dim, height, width) as
given by the configuration: its shape is (1, 1024, 180, 360), not
(1, 1024, 720, 1440). -/
theorem input_shape_cex :
    ¬ (mainInputAllocs defaultArgs =
        [[defaultArgs.batch_size, defaultArgs.embed_dim,
          defaultArgs.height, defaultArgs.width]]) := by decide

/-- C2 (amended): the program allocates exactly one input tensor, and its
shape is (batch_size, embed_dim, height // patch_size, width // patch_size). -/
theorem input_alloc_shape (a : Args) :
    (mainInputAllocs a).length = 1 ∧
    mainInputAllocs a =
      [[a.batch_size, a.embed_dim, a.height / a.patch_size, a.width / a.patch_size]] :=
  ⟨rfl, rfl⟩

/-- C3: with `--num_layers 0` the constructed model (whatever the external
`Block` constructor does, and with or without jit) is the identity: it maps
every input tensor to itself. -/
theorem num_layers_zero_identity (Data : Type) (a : Args)
    (blockCtor : Nat → Nat → Nat → Option (Data → Data))
    (h : a.num_layers = 0) :
    modelOf Data a blockCtor = some (id : Data → Data) ∧
    ∀ m : Data → Data, modelOf Data a blockCtor = some m → ∀ x : Data, m x = x := by
  have hb : buildModel Data a blockCtor = some id := by
    simp [buildModel, h]
  have hm : modelOf Data a blockCtor = some (id : Data → Data) := by
    simp [modelOf, hb, jitScript]
  refine ⟨hm, ?_⟩
  intro m hm2 x
  rw [hm] at hm2
  cases hm2
  rfl

/-- C3 witness: at the default arguments with zero layers and an always
failing block constructor, the model is still built and is the identity. -/
theorem num_layers_zero_identity_witness :
    modelOf Nat argsNL0 failingCtor = some (id : Nat → Nat) :=
  (num_layers_zero_identity Nat argsNL0 failingCtor rfl).1

/-- C4 counterexample: at a concrete configuration where
`height // patch_size = 0` (height 2, patch_size 4) and `num_layers = 0`, the
model builder does not fail — it succeeds even when every `Block`
construction would fail, refuting the claim that construction cannot succeed
silently for such configurations. -/
theorem builder_validation_cex :
    gridH badArgs = 0 ∧ (buildModel Nat badArgs failingCtor).isSome = true :=
  ⟨rfl, rfl⟩

/-- C4 (amended): the script performs no validation of
`height // patch_size` or `width // patch_size`: whenever `num_layers = 0`
the builder succeeds (with the identity model) for every configuration,
including those where the derived grid extents are zero; a failure can only
come from the externally defined `Block` constructor itself. -/
theorem builder_no_validation (Data : Type) (a : Args)
    (blockCtor : Nat → Nat → Nat → Option (Data → Data))
    (h : a.num_layers = 0) :
    buildModel Data a blockCtor = some (id : Data → Data) := by
  simp [buildModel, h]

/-- C4 witness: the degenerate configuration (grid height zero) with an
always-failing block constructor still builds successfully. -/
theorem builder_no_validation_witness :
    gridH badArgs = 0 ∧ buildModel Nat badArgs failingCtor = some (id : Nat → Nat) :=
  ⟨by decide, builder_no_validation Nat badArgs failingCtor rfl⟩

/-- C5: when `--enable_profiling` is given and `libcudart.so` is absent, the
process fails at import/load time (nothing of `main` runs, nothing is
printed, no profiling is silently skipped). -/
theorem profiling_lib_missing_fails (a : Args) (verify distInit : Bool)
    (scaffoldBytes startNs endNs peakBytes : Nat)
    (h : a.enable_profiling = true) :
    runScript false a verify distInit scaffoldBytes startNs endNs peakBytes =
      Except.error LoadError.libcudartMissing := rfl

/-- C5 witness: with profiling requested and the library absent, the run at
concrete counters is the load-time error. -/
theorem profiling_lib_missing_fails_witness :
    profArgs.enable_profiling = true ∧
    runScript false profArgs true false 0 0 0 0 =
      Except.error LoadError.libcudartMissing :=
  ⟨rfl, profiling_lib_missing_fails profArgs true false 0 0 0 0 rfl⟩

/-- C6: the collective barrier scoped to the model-parallel group appears in
the timed-region trace iff the distributed runtime is initialized; when it
does, it comes after every step (after each nvtx range pop) and before the
end clock reading. -/
theorem barrier_scoped_placement (ep di : Bool) :
    ((Event.barrier Group.modelParallel ∈ timedTrace ep di) ↔ di = true) ∧
    (∀ i j : Fin (timedTrace ep di).length,
      (timedTrace ep di).get i = Event.barrier Group.modelParallel →
      (timedTrace ep di).get j = Event.endClock → i < j) ∧
    (∀ i j : Fin (timedTrace ep di).length,
      (timedTrace ep di).get i = Event.barrier Group.modelParallel →
      (timedTrace ep di).get j = Event.rangePop → j < i) := by
  cases ep <;> cases di <;> exact ⟨by decide, by decide, by decide⟩

/-- C6 witness: with the distributed runtime initialized the barrier event is
in the trace; with it uninitialized it is not. -/
theorem barrier_scoped_placement_witness :
    (Event.barrier Group.modelParallel ∈ timedTrace false true) ∧
    ¬ (Event.barrier Group.modelParallel ∈ timedTrace false false) :=
  ⟨(barrier_scoped_placement false true).1.mpr rfl,
   fun h => by simpa using (barrier_scoped_placement false false).1.mp h⟩

/-- C7: the reported time per step equals the elapsed nanoseconds times
10 ^ (-6) divided by the iteration count 10 (milliseconds), and both
reported memory figures equal the corresponding allocator byte count divided
by 1024 ^ 3 (gigabytes); these are exactly the payloads of the printed
lines. -/
theorem report_formulas (scaffoldBytes startNs endNs peakBytes : Nat) :
    timePerStepMs startNs endNs =
      ((endNs : ℚ) - (startNs : ℚ)) * ((10 : ℚ) ^ (6 : Nat))⁻¹ / 10 ∧
    bytesToGB peakBytes = (peakBytes : ℚ) / 1024 ^ 3 ∧
    mainStdout scaffoldBytes startNs endNs peakBytes =
      [OutLine.scaffoldMem (bytesToGB scaffoldBytes),
       OutLine.timePerStep (timePerStepMs startNs endNs),
       OutLine.peakMem (bytesToGB peakBytes)] := by
  refine ⟨?_, ?_, rfl⟩
  · simp [timePerStepMs, num_steps, one_div]
  · norm_num [bytesToGB]

/-- C8: the input tensor is never resampled during the timed loop: starting
from the state left by the warm-up phase, after any number of timed
iterations the input contents and the RNG position are unchanged, and every
timed iteration computes its forward pass on exactly those fixed contents
(`num_steps` being the fixed count 10). -/
theorem timed_loop_input_fixed (Data : Type) (sample : Nat → Data)
    (model meanFn gradOf : Data → Data) (s0 : RunState Data) (k : Nat) :
    num_steps = 10 ∧
    ((timedStep Data model meanFn gradOf)^[k]
        (warmupPhase Data sample model meanFn gradOf s0)).inp =
      (warmupPhase Data sample model meanFn gradOf s0).inp ∧
    ((timedStep Data model meanFn gradOf)^[k]
        (warmupPhase Data sample model meanFn gradOf s0)).rngDraws =
      (warmupPhase Data sample model meanFn gradOf s0).rngDraws ∧
    ((timedStep Data model meanFn gradOf)^[k + 1]
        (warmupPhase Data sample model meanFn gradOf s0)).out =
      some (model (warmupPhase Data sample model meanFn gradOf s0).inp) := by
  refine ⟨rfl,
    (timedStep_iterate_fixed Data model meanFn gradOf _ k).1,
    (timedStep_iterate_fixed Data model meanFn gradOf _ k).2, ?_⟩
  rw [Function.iterate_succ_apply']
  show some (model ((timedStep Data model meanFn gradOf)^[k] _).inp) = _
  rw [(timedStep_iterate_fixed Data model meanFn gradOf _ k).1]

/-- C9: `libcudart.so` is loaded unconditionally at module import: with the
library absent the run fails with the load error for every argument vector,
in particular also when `--enable_profiling` is NOT given; the flag gates
only the profiler start/stop calls (the profiler events appear in the trace
iff the flag is set). -/
theorem lib_load_unconditional (a : Args) (verify distInit : Bool)
    (scaffoldBytes startNs endNs peakBytes : Nat) :
    runScript false a verify distInit scaffoldBytes startNs endNs peakBytes =
      Except.error LoadError.libcudartMissing ∧
    ((Event.profilerStart ∈ timedTrace a.enable_profiling distInit) ↔
      a.enable_profiling = true) ∧
    ((Event.profilerStop ∈ timedTrace a.enable_profiling distInit) ↔
      a.enable_profiling = true) := by
  refine ⟨rfl, ?_, ?_⟩ <;>
    cases h : a.enable_profiling <;> cases distInit <;> simp_all <;> decide

/-- C9 witness: with profiling NOT requested and the library absent, the run
at concrete counters still dies with the load error; and with the flag set
the profiler-start event is emitted. -/
theorem lib_load_unconditional_witness :
    runScript false defaultArgs true false 0 0 0 0 =
      Except.error LoadError.libcudartMissing ∧
    Event.profilerStart ∈ timedTrace profArgs.enable_profiling false :=
  ⟨(lib_load_unconditional defaultArgs true false 0 0 0 0).1,
   (lib_load_unconditional profArgs true false 0 0 0 0).2.1.mpr rfl⟩

/-- C10: the `verify` parameter of `main` is never read: any two runs that
differ only in `verify` produce identical results, and the `__main__` entry
point always passes `verify = True`. -/
theorem verify_unused (libcudartPresent : Bool) (a : Args) (v1 v2 distInit : Bool)
    (scaffoldBytes startNs endNs peakBytes : Nat) :
    runScript libcudartPresent a v1 distInit scaffoldBytes startNs endNs peakBytes =
      runScript libcudartPresent a v2 distInit scaffoldBytes startNs endNs peakBytes ∧
    scriptEntry libcudartPresent a distInit scaffoldBytes startNs endNs peakBytes =
      runScript libcudartPresent a true distInit scaffoldBytes startNs endNs peakBytes :=
  ⟨rfl, rfl⟩
